import Mathlib

/-!
Verification of `ts::unique_ptr` (ThreadSafeSmartPointers, `ts_memory.h`).

The header defines a thread-safe exclusive-ownership smart pointer
`ts::unique_ptr<T, TMutex, TDeleter>` holding a mutex `m_mtx` and a
`std::unique_ptr<T, TDeleter>` member `m_value`, two RAII proxy guards
(`proxy_locker` for member access, `proxy_locker_for_subscript` for array
indexing), explicit `lock`/`unlock`/`get`, move construction and move
assignment via `std::scoped_lock` on both mutexes, and `ts::make_unique`
helpers for single objects and arrays.

We embed the state of these classes shallowly: a pointer is `Option Nat`
(`none` is the null pointer, `some a` an address), the mutex is a `Bool`
(locked or not), and side effects that matter to the specification
(invocations of the cleanup action, lock acquisitions and releases) are
returned as explicit event lists.
-/

namespace ts

/-- A raw pointer: `none` models the null pointer, `some a` a non-null
address `a`. -/
abbrev Ptr := Option Nat

/-- Observable side effects of the embedded operations: `del d a` is an
invocation of the cleanup action (deleter) with identity `d` on the object
at address `a`; `acq` and `rel` are an acquisition and a release of a
container's mutex. -/
inductive Event where
  | del (deleter : Nat) (addr : Nat)
  | acq
  | rel
deriving DecidableEq, Repr

/-- State of the `std::unique_ptr<T, TDeleter>` member `m_value`: the owned
raw pointer and the identity of the stored deleter (the default deleter is
identity `0`). -/
structure std_unique_ptr where
  ptr : Ptr
  del : Nat
deriving DecidableEq, Repr

/-- `std::unique_ptr::get()`: returns the stored raw pointer. -/
def std_unique_ptr.get (u : std_unique_ptr) : Ptr := u.ptr

/-- `std::unique_ptr::release()`: returns the stored pointer and leaves the
source owning the null pointer; the deleter is kept. -/
def std_unique_ptr.release (u : std_unique_ptr) : Ptr × std_unique_ptr :=
  (u.ptr, { u with ptr := none })

/-- The cleanup invocations performed when a `std::unique_ptr` disposes of
its current object: one deleter call when the pointer is non-null, none when
it is null. -/
def std_unique_ptr.deleteEvents (u : std_unique_ptr) : List Event :=
  match u.ptr with
  | some a => [Event.del u.del a]
  | none => []

/-- `std::unique_ptr::reset(p)`: stores `p` and disposes of the previously
owned object. -/
def std_unique_ptr.reset (u : std_unique_ptr) (p : Ptr) :
    std_unique_ptr × List Event :=
  ({ u with ptr := p }, u.deleteEvents)

/-- `std::unique_ptr` move assignment `dst = std::move(src)`: equivalent to
`dst.reset(src.release())` followed by move-assigning the deleter. Returns
the new destination, the emptied source, and the cleanup events. -/
def std_unique_ptr.moveAssign (dst src : std_unique_ptr) :
    std_unique_ptr × std_unique_ptr × List Event :=
  let r := src.release
  let d := dst.reset r.1
  ({ d.1 with del := src.del }, r.2, d.2)

/-- `std::unique_ptr` destructor: disposes of the owned object. -/
def std_unique_ptr.destruct (u : std_unique_ptr) : List Event :=
  u.deleteEvents

/-- State of `ts::unique_ptr`: the mutex `m_mtx` (`true` when locked) and
the owning member `m_value`. -/
structure unique_ptr where
  m_mtx : Bool
  m_value : std_unique_ptr
deriving DecidableEq, Repr

/-- `ts::unique_ptr::unique_ptr()`: default construction; the mutex is
unlocked and `m_value` is a default `std::unique_ptr` (null pointer,
default deleter). -/
def unique_ptr.mk_default : unique_ptr :=
  ⟨false, ⟨none, 0⟩⟩

/-- `ts::unique_ptr::unique_ptr(t_element_type* value_ptr)`: takes
ownership of the raw pointer; default deleter. -/
def unique_ptr.mk_from_ptr (p : Ptr) : unique_ptr :=
  ⟨false, ⟨p, 0⟩⟩

/-- `ts::unique_ptr::unique_ptr(t_element_type*, deleter_type)`: takes
ownership of the raw pointer with a custom deleter. -/
def unique_ptr.mk_from_ptr_deleter (p : Ptr) (d : Nat) : unique_ptr :=
  ⟨false, ⟨p, d⟩⟩

/-- `ts::unique_ptr::lock()`: locks the mutex (blocking; the embedded
function records the post-acquisition state). -/
def unique_ptr.lock (s : unique_ptr) : unique_ptr :=
  { s with m_mtx := true }

/-- `ts::unique_ptr::unlock()`: unlocks the mutex. -/
def unique_ptr.unlock (s : unique_ptr) : unique_ptr :=
  { s with m_mtx := false }

/-- `ts::unique_ptr::get()`: `return m_value.get();` — a `const` accessor
whose body performs no mutex operation. Returns the raw pointer, the
(unchanged) container state, and the (empty) list of events. -/
def unique_ptr.get (s : unique_ptr) : Ptr × unique_ptr × List Event :=
  (s.m_value.get, s, [])

/-- `ts::unique_ptr::unique_ptr(unique_ptr&& other)`: the members of the
new container are default-constructed, a `std::scoped_lock` acquires both
mutexes for the body, and `m_value = std::move(other.m_value)` runs; the
scoped lock is released when the constructor returns, so both mutex states
are as before the call. Returns the new container, the moved-from
container, and the cleanup events of the body. -/
def unique_ptr.move_ctor (other : unique_ptr) :
    unique_ptr × unique_ptr × List Event :=
  let this0 : std_unique_ptr := ⟨none, 0⟩
  let r := std_unique_ptr.moveAssign this0 other.m_value
  (⟨false, r.1⟩, { other with m_value := r.2.1 }, r.2.2)

/-- `ts::unique_ptr::operator=(unique_ptr&& other)`: a `std::scoped_lock`
acquires both mutexes for the body, `m_value = std::move(other.m_value)`
runs, and the scoped lock is released on return. Returns the new
destination, the moved-from source, and the cleanup events of the body. -/
def unique_ptr.move_assign (this other : unique_ptr) :
    unique_ptr × unique_ptr × List Event :=
  let r := std_unique_ptr.moveAssign this.m_value other.m_value
  ({ this with m_value := r.1 }, { other with m_value := r.2.1 }, r.2.2)

/-- `ts::unique_ptr::~unique_ptr()` (implicitly generated): destroys
`m_value`, which disposes of the owned object. -/
def unique_ptr.destruct (s : unique_ptr) : List Event :=
  s.m_value.destruct

/-- State of the `proxy_locker` guard: whether its `std::unique_lock`
member `m_lock` currently owns the mutex, and the captured raw pointer
`m_ptr`. -/
structure proxy_locker where
  m_lock_owns : Bool
  m_ptr : Ptr
deriving DecidableEq, Repr

/-- `proxy_locker::proxy_locker(t_mutex&, T*)`: the `std::unique_lock`
member acquires the mutex (blocking) and the pointer is captured. Takes the
mutex state before the call and returns the guard, the mutex state after
acquisition, and the lock events. -/
def proxy_locker.ctor (mtx : Bool) (p : Ptr) :
    proxy_locker × Bool × List Event :=
  (⟨true, p⟩, true, [Event.acq])

/-- `proxy_locker::proxy_locker(proxy_locker&&) = default`: the
`std::unique_lock` member is move-constructed (the new lock takes over
ownership, the source lock no longer owns the mutex) and the raw pointer is
copied (the moved-from guard keeps its pointer value). Returns the new
guard and the moved-from guard. -/
def proxy_locker.move_ctor (o : proxy_locker) :
    proxy_locker × proxy_locker :=
  (⟨o.m_lock_owns, o.m_ptr⟩, ⟨false, o.m_ptr⟩)

/-- `proxy_locker::~proxy_locker() = default`: destroys the
`std::unique_lock` member, which releases the mutex exactly when it owns
it. Takes the mutex state and returns the mutex state after destruction and
the lock events. -/
def proxy_locker.dtor (g : proxy_locker) (mtx : Bool) :
    Bool × List Event :=
  if g.m_lock_owns then (false, [Event.rel]) else (mtx, [])

/-- `proxy_locker::operator->()`: returns the captured pointer. -/
def proxy_locker.arrow (g : proxy_locker) : Ptr :=
  g.m_ptr

/-- State of the `proxy_locker_for_subscript` guard: whether its
`std::unique_lock` member owns the mutex, and the captured raw pointer to
the managed array. -/
structure proxy_locker_for_subscript where
  m_lock_owns : Bool
  m_ptr : Ptr
deriving DecidableEq, Repr

/-- `proxy_locker_for_subscript::proxy_locker_for_subscript(t_mutex&,
t_element_type*)`: the `std::unique_lock` member acquires the mutex
(blocking) and the pointer is captured. -/
def proxy_locker_for_subscript.ctor (mtx : Bool) (p : Ptr) :
    proxy_locker_for_subscript × Bool × List Event :=
  (⟨true, p⟩, true, [Event.acq])

/-- `proxy_locker_for_subscript(proxy_locker_for_subscript&&) = default`:
the lock ownership transfers to the new guard, the moved-from guard's lock
no longer owns the mutex, and the raw pointer is copied. -/
def proxy_locker_for_subscript.move_ctor (o : proxy_locker_for_subscript) :
    proxy_locker_for_subscript × proxy_locker_for_subscript :=
  (⟨o.m_lock_owns, o.m_ptr⟩, ⟨false, o.m_ptr⟩)

/-- `~proxy_locker_for_subscript() = default`: releases the mutex exactly
when the `std::unique_lock` member owns it. -/
def proxy_locker_for_subscript.dtor (g : proxy_locker_for_subscript)
    (mtx : Bool) : Bool × List Event :=
  if g.m_lock_owns then (false, [Event.rel]) else (mtx, [])

/-- The raw array-indexing primitive: reading `base[i]` where the
allocation pointed to holds `data`. An access outside the allocation is
undefined behaviour in the source; the model marks it `none` (no value),
not an error signal. -/
def raw_array_read (data : List Int) (i : Nat) : Option Int :=
  data[i]?

/-- The raw array-indexing primitive used as the target of an assignment
`base[i] = v`; a store outside the allocation is undefined behaviour (the
model leaves the allocation unchanged there). -/
def raw_array_write (data : List Int) (i : Nat) (v : Int) : List Int :=
  data.set i v

/-- `proxy_locker_for_subscript::operator[](index)`: `return m_ptr[index];`
— forwards the index to the raw indexing primitive unconditionally, with no
bounds check of its own. `data` is the contents of the allocation `m_ptr`
points to. -/
def proxy_locker_for_subscript.subscript_read
    (g : proxy_locker_for_subscript) (data : List Int) (i : Nat) :
    Option Int :=
  raw_array_read data i

/-- A store through the reference returned by
`proxy_locker_for_subscript::operator[](index)`. -/
def proxy_locker_for_subscript.subscript_write
    (g : proxy_locker_for_subscript) (data : List Int) (i : Nat)
    (v : Int) : List Int :=
  raw_array_write data i v

/-- A `ts::unique_ptr<T[]>` together with the contents of the array
allocation its managed pointer refers to. -/
structure array_state where
  obj : unique_ptr
  data : List Int
deriving DecidableEq, Repr

/-- `ts::make_unique<T[]>(n)` (array overload): `new t_element_type[n]`
allocates an array of `n` default-initialized elements at a fresh non-null
address `a` (`operator new[]` returns a non-null pointer even for `n = 0`)
and the container takes ownership of it. Default initialization of the
element type is modelled by the value `0`. -/
def make_unique_array (a : Nat) (n : Nat) : array_state :=
  ⟨unique_ptr.mk_from_ptr (some a), List.replicate n 0⟩

/-- The full expression `(*p)[i] = v`: `operator*` locks the mutex and
yields a `proxy_locker_for_subscript` over the managed pointer, the store
goes through the guard's subscript, and the guard's destructor releases the
mutex at the end of the expression. -/
def array_state.write (s : array_state) (i : Nat) (v : Int) : array_state :=
  let c := proxy_locker_for_subscript.ctor s.obj.m_mtx (s.obj.get).1
  { s with data := c.1.subscript_write s.data i v }

/-- The full expression `(*p)[i]` as an rvalue read. -/
def array_state.read (s : array_state) (i : Nat) : Option Int :=
  let c := proxy_locker_for_subscript.ctor s.obj.m_mtx (s.obj.get).1
  c.1.subscript_read s.data i

/-- Writing `f 0, f 1, …, f (n-1)` to positions `0 … n-1` through the
indexed guard, one access expression per position. -/
def array_state.write_seq (s : array_state) (n : Nat) (f : Nat → Int) :
    array_state :=
  (List.range n).foldl (fun acc i => acc.write i (f i)) s

/-- `ts::make_unique<T>(args...)` (single-object overload): `new T(args...)`
allocates one object at a fresh non-null address `a` and the container
takes ownership of it. -/
def make_unique_single (a : Nat) : unique_ptr :=
  unique_ptr.mk_from_ptr (some a)

-- Helper lemmas about `array_state.write_seq`.

theorem array_state_write_data (s : array_state) (i : Nat) (v : Int) :
    (s.write i v).data = s.data.set i v := rfl

theorem array_state_write_obj (s : array_state) (i : Nat) (v : Int) :
    (s.write i v).obj = s.obj := rfl

theorem write_seq_succ (s : array_state) (n : Nat) (f : Nat → Int) :
    s.write_seq (n + 1) f = (s.write_seq n f).write n (f n) := by
  unfold array_state.write_seq
  rw [List.range_succ, List.foldl_append]
  rfl

theorem write_seq_data_length (s : array_state) (n : Nat) (f : Nat → Int) :
    (s.write_seq n f).data.length = s.data.length := by
  induction n with
  | zero => rfl
  | succ k ih =>
    rw [write_seq_succ, array_state_write_data, List.length_set, ih]

theorem write_seq_obj (s : array_state) (n : Nat) (f : Nat → Int) :
    (s.write_seq n f).obj = s.obj := by
  induction n with
  | zero => rfl
  | succ k ih =>
    rw [write_seq_succ, array_state_write_obj, ih]

theorem write_seq_read (s : array_state) (n : Nat) (f : Nat → Int)
    (i : Nat) (hi : i < n) (hn : n ≤ s.data.length) :
    ((s.write_seq n f).data)[i]? = some (f i) := by
  induction n with
  | zero => exact absurd hi (Nat.not_lt_zero i)
  | succ k ih =>
    rw [write_seq_succ, array_state_write_data]
    rcases Nat.lt_succ_iff_lt_or_eq.mp hi with h | h
    · rw [List.getElem?_set_ne (by omega)]
      exact ih h (by omega)
    · subst h
      rw [List.getElem?_set_self]
      rw [write_seq_data_length]
      omega

end ts

open ts

/-- C1: after move construction `B := move(A)` and after move assignment
`B = move(A)`, the source's unsynchronized accessor `get()` returns the
null pointer and the destination's `get()` returns the pointer `A` held
before the move. -/
theorem C1_move_transfers_ownership (A B : unique_ptr) :
    ((unique_ptr.move_ctor A).2.1.get.1 = none ∧
     (unique_ptr.move_ctor A).1.get.1 = A.get.1) ∧
    ((unique_ptr.move_assign B A).2.1.get.1 = none ∧
     (unique_ptr.move_assign B A).1.get.1 = A.get.1) :=
  ⟨⟨rfl, rfl⟩, ⟨rfl, rfl⟩⟩

/-- C2: constructing a container from a non-null raw pointer `some a` and
reading it back with the unsynchronized accessor `get()` while holding the
explicit lock returns exactly that pointer, and the container still holds
the same pointer afterwards. -/
theorem C2_construct_lock_get_roundtrip (a : Nat) :
    ((unique_ptr.mk_from_ptr (some a)).lock).get.1 = some a ∧
    ((unique_ptr.mk_from_ptr (some a)).lock).get.2.1.m_value.ptr = some a :=
  ⟨rfl, rfl⟩

/-- C4: destruction of a container invokes the cleanup action on the
managed object exactly once when the managed pointer is non-null, and
invokes no cleanup action when the managed pointer is null. -/
theorem C4_destruct_cleanup_exactly_once (s : unique_ptr) :
    (∀ a, s.m_value.ptr = some a →
      s.destruct = [Event.del s.m_value.del a]) ∧
    (s.m_value.ptr = none → s.destruct = []) := by
  constructor
  · intro a ha
    simp [unique_ptr.destruct, std_unique_ptr.destruct,
      std_unique_ptr.deleteEvents, ha]
  · intro ha
    simp [unique_ptr.destruct, std_unique_ptr.destruct,
      std_unique_ptr.deleteEvents, ha]

/-- Witness for C4 at concrete inputs: a container built from pointer `5`
with custom deleter `3` emits exactly one cleanup call on destruction, and
a default-constructed container emits none. -/
theorem C4_destruct_cleanup_exactly_once_witness :
    (unique_ptr.mk_from_ptr_deleter (some 5) 3).destruct =
      [Event.del 3 5] ∧
    (unique_ptr.mk_default).destruct = [] :=
  ⟨(C4_destruct_cleanup_exactly_once
      (unique_ptr.mk_from_ptr_deleter (some 5) 3)).1 5 rfl,
   (C4_destruct_cleanup_exactly_once unique_ptr.mk_default).2 rfl⟩

/-- C5: constructing a container from the null raw pointer signals no error
and yields exactly the state of the default-constructed container, an empty
container whose `get()` returns null. -/
theorem C5_null_construction_is_empty :
    unique_ptr.mk_from_ptr none = unique_ptr.mk_default ∧
    (unique_ptr.mk_from_ptr none).get.1 = none ∧
    (unique_ptr.mk_default).get.1 = none :=
  ⟨rfl, rfl, rfl⟩

/-- C6: `ts::make_unique<T[]>(n)` yields a container over an array of `n`
default-initialized elements; writing all `n` positions through the indexed
guard and reading them back returns exactly the written values; and for
`n = 0` the managed pointer is still non-null while the valid index range
is empty. -/
theorem C6_array_write_readback (a n : Nat) (f : Nat → Int) :
    ((make_unique_array a n).data.length = n) ∧
    (∀ i, i < n →
      ((make_unique_array a n).write_seq n f).read i = some (f i)) ∧
    ((make_unique_array a 0).obj.get.1 = some a ∧
     (make_unique_array a 0).data.length = 0) := by
  refine ⟨by simp [make_unique_array], ?_, rfl, rfl⟩
  intro i hi
  have hr := write_seq_read (make_unique_array a n) n f i hi
    (by simp [make_unique_array])
  simpa [array_state.read, proxy_locker_for_subscript.ctor,
    proxy_locker_for_subscript.subscript_read, raw_array_read] using hr

/-- Witness for C6 at concrete inputs: an array of length 5 written with
`i + 10` at each position reads back those values; the zero-length array
keeps a non-null managed pointer and an empty index range. -/
theorem C6_array_write_readback_witness :
    ((make_unique_array 1 5).write_seq 5 (fun i => (i : Int) + 10)).read 3 =
      some 13 ∧
    (make_unique_array 1 0).obj.get.1 = some 1 ∧
    (make_unique_array 1 0).data.length = 0 :=
  ⟨(C6_array_write_readback 1 5 (fun i => (i : Int) + 10)).2.1 3
      (by decide),
   (C6_array_write_readback 1 0 (fun i => (i : Int) + 10)).2.2⟩

/-- C7: both guard variants acquire the lock at construction and release it
exactly once: destroying a guard releases the lock, and after move
construction the moved-from guard's destructor releases nothing while the
new guard's destructor performs the single release. -/
theorem C7_guard_lock_release_exactly_once (p : Ptr) :
    -- member-style guard, construct then destroy
    ((proxy_locker.ctor false p).2.2 = [Event.acq] ∧
     (proxy_locker.ctor false p).2.1 = true ∧
     ((proxy_locker.ctor false p).1.dtor
        (proxy_locker.ctor false p).2.1) = (false, [Event.rel])) ∧
    -- member-style guard, construct, move, destroy both
    (((proxy_locker.ctor false p).1.move_ctor.2.dtor
        (proxy_locker.ctor false p).2.1) = (true, []) ∧
     ((proxy_locker.ctor false p).1.move_ctor.1.dtor true) =
        (false, [Event.rel]) ∧
     (proxy_locker.ctor false p).1.move_ctor.1.m_ptr = p) ∧
    -- indexed guard, construct then destroy
    ((proxy_locker_for_subscript.ctor false p).2.2 = [Event.acq] ∧
     (proxy_locker_for_subscript.ctor false p).2.1 = true ∧
     ((proxy_locker_for_subscript.ctor false p).1.dtor
        (proxy_locker_for_subscript.ctor false p).2.1) =
        (false, [Event.rel])) ∧
    -- indexed guard, construct, move, destroy both
    (((proxy_locker_for_subscript.ctor false p).1.move_ctor.2.dtor
        (proxy_locker_for_subscript.ctor false p).2.1) = (true, []) ∧
     ((proxy_locker_for_subscript.ctor false p).1.move_ctor.1.dtor true) =
        (false, [Event.rel]) ∧
     (proxy_locker_for_subscript.ctor false p).1.move_ctor.1.m_ptr = p) :=
  ⟨⟨rfl, rfl, rfl⟩, ⟨rfl, rfl, rfl⟩, ⟨rfl, rfl, rfl⟩, ⟨rfl, rfl, rfl⟩⟩

/-- C8: `get()` returns the raw managed pointer, performs no lock
acquisition or release, and leaves the whole container state (mutex,
managed pointer and deleter) unchanged. -/
theorem C8_get_no_lock_no_mutation (s : unique_ptr) :
    s.get.1 = s.m_value.get ∧
    s.get.2.2 = ([] : List Event) ∧
    s.get.2.1.m_mtx = s.m_mtx ∧
    s.get.2.1.m_value = s.m_value :=
  ⟨rfl, rfl, rfl, rfl⟩

/-- C9: the indexed guard's subscript forwards the index to the raw
array-indexing primitive unconditionally (no bounds check of its own); when
the index is in bounds the access returns the element at that offset, and
when it is out of range the result is the primitive's undefined-behaviour
marker, not a detected or signalled error. -/
theorem C9_subscript_no_bounds_check (g : proxy_locker_for_subscript)
    (data : List Int) (i : Nat) :
    g.subscript_read data i = raw_array_read data i ∧
    (∀ h : i < data.length,
      g.subscript_read data i = some (data.get ⟨i, h⟩)) ∧
    (data.length ≤ i → g.subscript_read data i = none) := by
  refine ⟨rfl, ?_, ?_⟩
  · intro h
    simp [proxy_locker_for_subscript.subscript_read, raw_array_read,
      List.getElem?_eq_getElem h]
  · intro h
    simp [proxy_locker_for_subscript.subscript_read, raw_array_read,
      List.getElem?_eq_none h]

/-- Witness for C9 at concrete inputs: on the two-element array `[4, 9]`
the guard's subscript returns `9` at index `1` and the undefined-behaviour
marker at the out-of-range index `5`. -/
theorem C9_subscript_no_bounds_check_witness :
    (proxy_locker_for_subscript.ctor false (some 1)).1.subscript_read
      [4, 9] 1 = some 9 ∧
    (proxy_locker_for_subscript.ctor false (some 1)).1.subscript_read
      [4, 9] 5 = none :=
  ⟨(C9_subscript_no_bounds_check
      (proxy_locker_for_subscript.ctor false (some 1)).1 [4, 9] 1).2.1
      (by decide),
   (C9_subscript_no_bounds_check
      (proxy_locker_for_subscript.ctor false (some 1)).1 [4, 9] 5).2.2
      (by decide)⟩

/-- C10: when move assignment `B = move(A)` runs with a destination `B`
that already manages a non-null object, that object's cleanup action is
invoked exactly once during the assignment, and `B` ends up owning `A`'s
pointer. -/
theorem C10_move_assign_deletes_old (B A : unique_ptr) (b : Nat)
    (hb : B.m_value.ptr = some b) :
    (unique_ptr.move_assign B A).2.2 = [Event.del B.m_value.del b] ∧
    (unique_ptr.move_assign B A).1.m_value.ptr = A.m_value.ptr := by
  constructor
  · simp [unique_ptr.move_assign, std_unique_ptr.moveAssign,
      std_unique_ptr.reset, std_unique_ptr.release,
      std_unique_ptr.deleteEvents, hb]
  · rfl

/-- Witness for C10 at concrete inputs: moving a container holding pointer
`3` into a destination holding pointer `7` with deleter `2` emits exactly
one cleanup call on the old object, and the destination then holds `3`. -/
theorem C10_move_assign_deletes_old_witness :
    (unique_ptr.move_assign (unique_ptr.mk_from_ptr_deleter (some 7) 2)
      (unique_ptr.mk_from_ptr (some 3))).2.2 = [Event.del 2 7] ∧
    (unique_ptr.move_assign (unique_ptr.mk_from_ptr_deleter (some 7) 2)
      (unique_ptr.mk_from_ptr (some 3))).1.m_value.ptr = some 3 :=
  C10_move_assign_deletes_old (unique_ptr.mk_from_ptr_deleter (some 7) 2)
    (unique_ptr.mk_from_ptr (some 3)) 7 rfl
